import Mathlib

/-!
Verification of the hyac FaaS platform's control plane and runtime against its
natural-language specification.  The Python source is shallowly embedded:
pure fragments become Lean functions, stateful fragments become explicit
state-passing functions, wall-clock time is an explicit `Nat` parameter, and
Python exceptions become `Except` values.
-/

set_option maxHeartbeats 1000000

/- ### Shared string / dict helpers

Python dictionaries preserve insertion order; assigning to an existing key
keeps its position, assigning a fresh key appends it at the end, and `del`
removes the entry.  We model a dict as an association list in insertion
order. -/

/-- Python `s.startswith(p)`: `p` is a prefix of the character sequence of `s`. -/
def strStartsWith (s p : String) : Bool :=
  p.data.isPrefixOf s.data

/-- Python dict assignment `d[k] = v`: update in place if the key is present,
otherwise append the new entry at the end. -/
def dictInsert {β : Type} (l : List (String × β)) (k : String) (v : β) :
    List (String × β) :=
  match l with
  | [] => [(k, v)]
  | (k', v') :: rest =>
    if k' = k then (k, v) :: rest else (k', v') :: dictInsert rest k v

/-- Python `del d[k]` (on possibly repeated keys: removes every entry for `k`;
the lists we build have unique keys). -/
def dictRemove {β : Type} (l : List (String × β)) (k : String) :
    List (String × β) :=
  l.filter (fun kv => kv.1 ≠ k)

/-- Python dict lookup `d.get(k)` / `d[k]`. -/
def dictLookup {β : Type} (l : List (String × β)) (k : String) : Option β :=
  match l with
  | [] => none
  | (k', v) :: rest => if k' = k then some v else dictLookup rest k

theorem lookup_dictInsert_self {β : Type} (l : List (String × β)) (k : String) (v : β) :
    dictLookup (dictInsert l k v) k = some v := by
  induction l with
  | nil => simp [dictInsert, dictLookup]
  | cons hd tl ih =>
    by_cases h : hd.1 = k
    · simp [dictInsert, h, dictLookup]
    · simp only [dictInsert]
      rw [if_neg h]
      simpa [dictLookup, h] using ih

theorem lookup_dictInsert_ne {β : Type} (l : List (String × β)) (k k' : String) (v : β)
    (h : k' ≠ k) : dictLookup (dictInsert l k v) k' = dictLookup l k' := by
  induction l with
  | nil => simp [dictInsert, dictLookup, Ne.symm h]
  | cons hd tl ih =>
    by_cases hh : hd.1 = k
    · subst hh
      simp [dictInsert, dictLookup, Ne.symm h]
    · simp only [dictInsert]
      rw [if_neg hh]
      by_cases hk' : hd.1 = k'
      · simp [dictLookup, hk']
      · simp [dictLookup, hk', ih]

theorem lookup_eq_none_of_not_mem_keys {β : Type} (l : List (String × β)) (k : String)
    (h : k ∉ l.map Prod.fst) : dictLookup l k = none := by
  induction l with
  | nil => rfl
  | cons hd tl ih =>
    simp only [List.map_cons, List.mem_cons] at h
    push_neg at h
    simp [dictLookup, Ne.symm h.1, ih h.2]

theorem length_dictInsert_le {β : Type} (l : List (String × β)) (k : String) (v : β) :
    (dictInsert l k v).length ≤ l.length + 1 := by
  induction l with
  | nil => simp [dictInsert]
  | cons hd tl ih =>
    by_cases h : hd.1 = k
    · simp [dictInsert, h]
    · simp only [dictInsert]
      rw [if_neg h]
      simp only [List.length_cons]
      omega

/- ### Runtime code cache (src/app/core/cache.py, class CodeCache)

`_cache` is a dict from string keys to `{"data": ..., "expire_at": ...}`;
`time.time()` is passed explicitly as `now`.  The cached payloads are opaque
to the cache, so the model is polymorphic in the entry type. -/

/-- One entry of `CodeCache._cache`: `{"data": data, "expire_at": expire_at}`. -/
structure CacheEntry (α : Type) where
  data : α
  expire_at : Nat
deriving DecidableEq, Repr

/-- The in-memory cache `CodeCache` of src/app/core/cache.py: a dict in
insertion order plus `max_size` and `ttl`. -/
structure CodeCache (α : Type) where
  cache : List (String × CacheEntry α)
  max_size : Nat
  ttl : Nat
deriving DecidableEq, Repr

/-- `CodeCache._make_key`: `app_name::function_id`, with an optional
`::suffix` (e.g. `common`). -/
def CodeCache.make_key (app_name function_id : String) (sfx : Option String) : String :=
  let key := app_name ++ "::" ++ function_id
  match sfx with
  | none => key
  | some s => key ++ "::" ++ s

/-- `CodeCache.get`: return the data if the entry exists and
`entry["expire_at"] > time.time()`. -/
def CodeCache.get {α : Type} (c : CodeCache α) (key : String) (now : Nat) : Option α :=
  match dictLookup c.cache key with
  | some e => if now < e.expire_at then some e.data else none
  | none => none

/-- `CodeCache._evict`: delete `next(iter(self._cache))`, the oldest-inserted
key.  (On an empty dict the source would raise `StopIteration`; `_evict` is
only ever called when `len(self._cache) >= self.max_size`, so the list is
nonempty whenever `max_size ≥ 1`.) -/
def CodeCache.evict {α : Type} (l : List (String × CacheEntry α)) :
    List (String × CacheEntry α) :=
  l.tail

/-- `CodeCache.set`: evict the oldest item when `len(self._cache) >= self.max_size`,
then store `{"data": data, "expire_at": time.time() + self.ttl}` under `key`. -/
def CodeCache.set {α : Type} (c : CodeCache α) (key : String) (data : α) (now : Nat) :
    CodeCache α :=
  let base := if c.max_size ≤ c.cache.length then CodeCache.evict c.cache else c.cache
  { c with cache := dictInsert base key ⟨data, now + c.ttl⟩ }

/-- `CodeCache.invalidate`: remove every key that starts with
`app_name::function_id` (the entry itself and all its suffix variants). -/
def CodeCache.invalidate {α : Type} (c : CodeCache α) (app_name function_id : String) :
    CodeCache α :=
  let pfx := CodeCache.make_key app_name function_id none
  { c with cache := c.cache.filter (fun kv => ! strStartsWith kv.1 pfx) }

/-- `CodeCache.clear_app_cache`: remove every key starting with `app_id::`. -/
def CodeCache.clear_app_cache {α : Type} (c : CodeCache α) (app_id : String) :
    CodeCache α :=
  { c with cache := c.cache.filter (fun kv => ! strStartsWith kv.1 (app_id ++ "::")) }

theorem strStartsWith_append (p s : String) : strStartsWith (p ++ s) p = true := by
  simp only [strStartsWith]
  rw [List.isPrefixOf_iff_prefix]
  show p.data <+: (p ++ s).data
  rw [String.data_append]
  exact List.prefix_append _ _

theorem make_key_startsWith (a i : String) (sfx : Option String) :
    strStartsWith (CodeCache.make_key a i sfx) (CodeCache.make_key a i none) = true := by
  cases sfx with
  | none =>
    simpa using strStartsWith_append (CodeCache.make_key a i none) ""
  | some s =>
    have h := strStartsWith_append (CodeCache.make_key a i none) ("::" ++ s)
    simpa [CodeCache.make_key, String.append_assoc] using h

theorem lookup_filter_not_startsWith {α : Type} (l : List (String × CacheEntry α))
    (pfx k : String) (hk : strStartsWith k pfx = true) :
    dictLookup (l.filter (fun kv => ! strStartsWith kv.1 pfx)) k = none := by
  induction l with
  | nil => rfl
  | cons hd tl ih =>
    by_cases hh : strStartsWith hd.1 pfx
    · simp [List.filter, hh, ih]
    · have hne : hd.1 ≠ k := by
        intro he
        rw [he] at hh
        exact hh hk
      simp [List.filter, hh, dictLookup, hne, ih]

/-- Claim C8: after `code_cache.set(k, v)`, `code_cache.get(k)` returns `v`
until the entry's TTL has expired (and returns nothing after TTL expiry);
the cache is bounded in size with FIFO (oldest-inserted-first) eviction when
full; and `invalidate(app, id)` removes the entry for `(app, id)` together
with every suffix variant of that key (e.g. the `::common` variant). -/
theorem code_cache_contract {α : Type} (c : CodeCache α) (k k₀ : String) (v : α)
    (now now' : Nat) (e₀ : CacheEntry α) (rest : List (String × CacheEntry α))
    (hbound : c.cache.length ≤ c.max_size)
    (hfull : c.max_size ≤ c.cache.length)
    (hhead : c.cache = (k₀, e₀) :: rest)
    (hne : k₀ ≠ k)
    (hkeys : k₀ ∉ rest.map Prod.fst) :
    ((c.set k v now).get k now' = if now' < now + c.ttl then some v else none)
    ∧ (c.set k v now).cache.length ≤ c.max_size
    ∧ (c.set k v now).get k₀ now' = none
    ∧ (∀ a i sfx t, (c.invalidate a i).get (CodeCache.make_key a i sfx) t = none) := by
  have hbase :
      (if c.max_size ≤ c.cache.length then CodeCache.evict c.cache else c.cache) = rest := by
    rw [if_pos hfull, hhead]
    rfl
  refine ⟨?_, ?_, ?_, ?_⟩
  · show CodeCache.get _ k now' = _
    unfold CodeCache.set CodeCache.get
    simp only [hbase, lookup_dictInsert_self]
  · show (CodeCache.set c k v now).cache.length ≤ c.max_size
    unfold CodeCache.set
    simp only [hbase]
    have h1 := length_dictInsert_le rest k (⟨v, now + c.ttl⟩ : CacheEntry α)
    have h2 : rest.length + 1 = c.cache.length := by
      rw [hhead]
      rfl
    omega
  · show CodeCache.get _ k₀ now' = _
    unfold CodeCache.set CodeCache.get
    simp only [hbase]
    rw [lookup_dictInsert_ne rest k k₀ _ hne, lookup_eq_none_of_not_mem_keys rest k₀ hkeys]
  · intro a i sfx t
    unfold CodeCache.invalidate CodeCache.get
    rw [lookup_filter_not_startsWith c.cache (CodeCache.make_key a i none)
      (CodeCache.make_key a i sfx) (make_key_startsWith a i sfx)]

/-- A concrete one-slot cache used to witness `code_cache_contract`. -/
def cacheExampleC8 : CodeCache Nat :=
  { cache := [("x", ⟨7, 100⟩)], max_size := 1, ttl := 50 }

/-- Witness for C8 at a concrete full cache: setting a fresh key evicts the
oldest entry, the size bound holds, the get-after-set equation yields the new
value before TTL expiry, and invalidation purges the `::common` variant. -/
theorem code_cache_contract_witness :
    ((cacheExampleC8.set "y" 9 10).get "y" 20 = some 9)
    ∧ (cacheExampleC8.set "y" 9 10).cache.length ≤ 1
    ∧ ((cacheExampleC8.set "y" 9 10).get "x" 20 = none)
    ∧ ((cacheExampleC8.invalidate "A" "f").get
        (CodeCache.make_key "A" "f" (some "common")) 0 = none) := by
  obtain ⟨h1, h2, h3, h4⟩ :=
    code_cache_contract cacheExampleC8 "y" "x" 9 10 20 ⟨7, 100⟩ []
      (by decide) (by decide) rfl (by decide) (by decide)
  refine ⟨?_, h2, h3, h4 "A" "f" (some "common") 0⟩
  rw [h1]
  norm_num [cacheExampleC8]

/- ### Function documents and the runtime code loader
(src/server/models/functions_model.py, src/app/code_loader.py) -/

/-- `FunctionType` of models/functions_model.py. -/
inductive FunctionType
  | endpoint
  | common
deriving DecidableEq, Repr

/-- `FunctionStatus` of models/functions_model.py. -/
inductive FunctionStatus
  | unpublished
  | published
deriving DecidableEq, Repr

/-- The fields of a `Function` document that the loader and the watchers read. -/
structure FunctionDoc where
  app_id : String
  function_id : String
  function_name : String
  function_type : FunctionType
  status : FunctionStatus
  code : String
deriving DecidableEq, Repr

/-- The namespace produced by `CodeLoader._compile_code`: the source is
`exec`-ed in a fresh dict with `minio_open` injected.  The resulting opaque
namespace is modelled by the source text that determines it. -/
structure CompiledModule where
  source : String
deriving DecidableEq, Repr

/-- `CodeLoader._compile_code` (success case). -/
def compile_code (code : String) : CompiledModule :=
  ⟨code⟩

/-- The global runtime cache instance of src/app/core/cache.py:
`code_cache = CodeCache(max_size=1024, ttl=7200)`. -/
def code_cache : CodeCache CompiledModule :=
  { cache := [], max_size := 1024, ttl := 7200 }

/-- `CodeLoader.load_function_by_name`: cache key `app_id::function_id`
(no suffix); on a miss, query a `published` `endpoint` function, compile,
and cache the result.  The database is passed as the list of `Function`
documents. -/
def load_function_by_name (db : List FunctionDoc) (app_id function_id : String)
    (c : CodeCache CompiledModule) (now : Nat) :
    Option CompiledModule × CodeCache CompiledModule :=
  let key := CodeCache.make_key app_id function_id none
  match c.get key now with
  | some m => (some m, c)
  | none =>
    match db.find? (fun f => f.app_id == app_id && f.function_id == function_id
        && f.status == FunctionStatus.published
        && f.function_type == FunctionType.endpoint) with
    | none => (none, c)
    | some f =>
      let compiled := compile_code f.code
      (some compiled, c.set key compiled now)

/-- `CodeLoader.load_all_common_functions`: for every `published` `common`
function of the app, use the cache under key `app_id::function_id::common`
when it hits, otherwise compile and cache; collect the namespace entries
keyed by `function_id`. -/
def load_all_common_functions (db : List FunctionDoc) (app_id : String)
    (c : CodeCache CompiledModule) (now : Nat) :
    List (String × CompiledModule) × CodeCache CompiledModule :=
  let funcs := db.filter fun f =>
    f.app_id == app_id && f.status == FunctionStatus.published
      && f.function_type == FunctionType.common
  funcs.foldl
    (fun acc f =>
      let key := CodeCache.make_key app_id f.function_id (some "common")
      match acc.2.get key now with
      | some m => (acc.1 ++ [(f.function_id, m)], acc.2)
      | none =>
        let compiled := compile_code f.code
        (acc.1 ++ [(f.function_id, compiled)], acc.2.set key compiled now))
    ([], c)

/- ### Function change watcher (src/app/core/cache_watcher.py) -/

/-- Change-stream operation types matched by the watcher's pipeline. -/
inductive OperationType
  | update
  | replace
deriving DecidableEq, Repr

/-- One delivery of the function change feed as seen by
`watch_function_changes`: the operation type, the `fullDocument` after the
change, and whether `code` is among `updateDescription.updatedFields`. -/
structure FunctionChangeEvent where
  operation_type : OperationType
  full_document : FunctionDoc
  code_in_updated_fields : Bool
deriving Repr

/-- The body of the `async for change in stream` loop of
`watch_function_changes`: pick the identifier (`function_name` for `common`
functions, `function_id` otherwise), invalidate when the code changed, and
for `common` functions reload the whole common namespace into `app.state`. -/
def watch_function_changes_step (db : List FunctionDoc) (ev : FunctionChangeEvent)
    (c : CodeCache CompiledModule) (common_modules : List (String × CompiledModule))
    (now : Nat) :
    CodeCache CompiledModule × List (String × CompiledModule) :=
  let doc := ev.full_document
  let identifier :=
    if doc.function_type = FunctionType.common then doc.function_name
    else doc.function_id
  let should_invalidate :=
    match ev.operation_type with
    | .update => ev.code_in_updated_fields
    | .replace => true
  if should_invalidate then
    let c' := c.invalidate doc.app_id identifier
    if doc.function_type = FunctionType.common then
      let res := load_all_common_functions db doc.app_id c' now
      (res.2, res.1)
    else (c', common_modules)
  else (c, common_modules)

/-- The updated `common` function of the C1 scenario: `function_id` `f1`,
`function_name` `util`, new code already persisted. -/
def c1FunctionNew : FunctionDoc :=
  ⟨"A", "f1", "util", FunctionType.common, FunctionStatus.published, "new code"⟩

/-- The functions collection after the code change of the C1 scenario. -/
def c1Db : List FunctionDoc := [c1FunctionNew]

/-- The runtime cache before the change event: the loader stored the old
compiled module under `A::f1::common` at time 0. -/
def c1CacheBefore : CodeCache CompiledModule :=
  code_cache.set (CodeCache.make_key "A" "f1" (some "common")) (compile_code "old code") 0

/-- The change event delivered for the C1 scenario: an `update` whose
`updatedFields` include `code`. -/
def c1Event : FunctionChangeEvent := ⟨OperationType.update, c1FunctionNew, true⟩

/-- Claim C1 (refuted, code bug): the watcher invalidates a `common` function
under `(app_id, function_name)` (`A::util`), but the loader caches it under
`(app_id, function_id, "common")` (`A::f1::common`); after the change-feed
delivery the stale entry still hits (no cache miss on the next request), the
rebuilt common namespace still carries the old code, and so does any later
reload. -/
theorem common_function_invalidation_misses_loader_key :
    ((watch_function_changes_step c1Db c1Event c1CacheBefore
        [("f1", compile_code "old code")] 0).1).get
      (CodeCache.make_key "A" "f1" (some "common")) 0 = some (compile_code "old code")
    ∧ (watch_function_changes_step c1Db c1Event c1CacheBefore
        [("f1", compile_code "old code")] 0).2 = [("f1", compile_code "old code")]
    ∧ (load_all_common_functions c1Db "A"
        (watch_function_changes_step c1Db c1Event c1CacheBefore
          [("f1", compile_code "old code")] 0).1 0).1
      = [("f1", compile_code "old code")] := by
  refine ⟨rfl, rfl, rfl⟩

/- ### Environment variable watcher (src/app/core/env_manager.py) -/

/-- `EnvironmentVariable` of models/applications_model.py. -/
structure EnvironmentVariable where
  key : String
  value : String
deriving DecidableEq, Repr

/-- In `watch_for_env_changes`, the membership test reads
`getattr(Application.find_one({"app_id": app_id}), "environment_variables", [])`.
The `find_one` coroutine is never awaited, so the `getattr` falls back to its
default `[]`, and the generator `any(env.key == k for env in [])` is always
`False`. -/
def unawaited_find_one_environment_variables : List EnvironmentVariable := []

/-- The keys the watcher decides to delete from `os.environ`:
`current_app_keys - set(latest_vars_dict.keys())`, where `current_app_keys`
collects the process-env keys with `k in latest_vars_dict or any(...)`. -/
def env_keys_to_remove (procEnv : List (String × String))
    (latest_vars_dict : List (String × String)) : List String :=
  let current_app_keys := (procEnv.map Prod.fst).filter fun k =>
    (dictLookup latest_vars_dict k).isSome
      || unawaited_find_one_environment_variables.any (fun env => env.key == k)
  current_app_keys.filter fun k => (dictLookup latest_vars_dict k).isNone

/-- The body of the change-stream loop of `watch_for_env_changes`: build
`latest_vars_dict` from the full document, delete `keys_to_remove` from the
process environment, then add or update every persisted pair whose value
differs from `os.getenv(key)`. -/
def watch_for_env_changes_step (procEnv : List (String × String))
    (latest_vars_list : List EnvironmentVariable) : List (String × String) :=
  let latest_vars_dict :=
    latest_vars_list.foldl (fun d it => dictInsert d it.key it.value) []
  let keys := env_keys_to_remove procEnv latest_vars_dict
  let env1 := keys.foldl
    (fun e k => if (dictLookup e k).isSome then dictRemove e k else e) procEnv
  latest_vars_dict.foldl
    (fun e kv => if dictLookup e kv.1 ≠ some kv.2 then dictInsert e kv.1 kv.2 else e) env1

/-- Claim C4 (refuted, code bug): the environment watcher never removes any
key.  `keys_to_remove` is empty for every input (the membership test only
admits keys that are still in the new persisted list, because the un-awaited
`find_one` contributes nothing), so a previously managed key that disappears
from `environment_variables` — here `FOO` after the list becomes empty —
survives in the process environment. -/
theorem env_watcher_never_removes :
    (∀ procEnv latest, env_keys_to_remove procEnv latest = [])
    ∧ watch_for_env_changes_step [("FOO", "1")] [] = [("FOO", "1")] := by
  constructor
  · intro procEnv latest
    unfold env_keys_to_remove
    rw [List.filter_eq_nil_iff]
    intro k hk
    simp only [List.mem_filter, unawaited_find_one_environment_variables,
      List.any_nil, Bool.or_false] at hk
    simp [Option.isNone_iff_eq_none, Option.isSome_iff_ne_none.mp hk.2]
  · rfl

/- ### Runtime request dispatch (src/app/router.py, dynamic_handler) -/

/-- `CallStatus` of src/app/models/statistics_model.py. -/
inductive CallStatus
  | success
  | error
  | unknown
deriving DecidableEq, Repr

/-- The outcome of invoking the user handler inside `dynamic_handler`'s
`try` block: a returned value, a raised `HTTPException`, or any other
raised exception (with its string form `str(e)`). -/
inductive HandlerOutcome
  | ok (body : String)
  | httpException (status_code : Nat) (detail : String)
  | exception (message : String)
deriving DecidableEq, Repr

/-- What the HTTP layer sends back: the handler's return value passed
through, FastAPI's rendering of a re-raised `HTTPException`, or the literal
dict `{"code": 1, "msg": str(e), "data": None}` returned by the generic
`except` branch. -/
inductive ResponseBody
  | handlerValue (body : String)
  | httpExceptionDetail (detail : String)
  | errorEnvelope (code : Nat) (msg : String)
deriving DecidableEq, Repr

/-- An HTTP response of the runtime: status code plus body. -/
structure HttpResponse where
  status_code : Nat
  body : ResponseBody
deriving DecidableEq, Repr

/-- The `FunctionMetric` fields decided by `dynamic_handler`'s `finally`
block: `status` and the `extra` pair `{type, detail}`. -/
structure MetricRecord where
  status : CallStatus
  extra : Option (String × String)
deriving DecidableEq, Repr

/-- The `try`/`except`/`finally` structure of `dynamic_handler` around the
handler invocation: a returned value is passed back as-is (HTTP 200), a
raised `HTTPException` is re-raised for FastAPI to render, and any other
exception yields `return {"code": 1, "msg": str(e), "data": None}` — an HTTP
200 response — while the `finally` block records the metric. -/
def dynamic_handler (outcome : HandlerOutcome) : HttpResponse × MetricRecord :=
  match outcome with
  | .ok b => (⟨200, ResponseBody.handlerValue b⟩, ⟨CallStatus.success, none⟩)
  | .httpException s d =>
    (⟨s, ResponseBody.httpExceptionDetail d⟩, ⟨CallStatus.error, some ("HTTPException", d)⟩)
  | .exception m =>
    (⟨200, ResponseBody.errorEnvelope 1 m⟩, ⟨CallStatus.error, some ("Exception", m)⟩)

/-- Counterexample to claim C6 as stated: a user-thrown exception `boom` is
answered with HTTP status 200 (the generic error envelope), not an HTTP 500
response. -/
theorem dynamic_handler_exception_not_500 :
    (dynamic_handler (HandlerOutcome.exception "boom")).1.status_code = 200
    ∧ (dynamic_handler (HandlerOutcome.exception "boom")).1.status_code ≠ 500 := by
  exact ⟨rfl, by decide⟩

/-- Claim C6 as amended: a user-thrown exception inside a handler is surfaced
as an HTTP 200 response carrying the generic error envelope
`{"code": 1, "msg": str(e), "data": None}` with the exception's string form,
and a `FunctionMetric` with status `error` and extra `{type, detail}` is
recorded for that request. -/
theorem dynamic_handler_exception_envelope (m : String) :
    dynamic_handler (HandlerOutcome.exception m)
      = (⟨200, ResponseBody.errorEnvelope 1 m⟩,
         ⟨CallStatus.error, some ("Exception", m)⟩) := rfl

/- ### Application lifecycle routes (src/server/routers/applications.py) -/

/-- `ApplicationStatus` of models/applications_model.py. -/
inductive ApplicationStatus
  | starting
  | running
  | stopping
  | stopped
  | deleting
  | error
deriving DecidableEq, Repr

/-- What a lifecycle route does once the Application document is found:
the envelope `code` it answers with (for an `HTTPException` path,
`is_http_exception` is set and `code` is the HTTP status), whether a new
`Task` document was inserted, and the status written to the Application. -/
structure RouteResult where
  code : Nat
  is_http_exception : Bool
  task_inserted : Bool
  new_status : Option ApplicationStatus
deriving DecidableEq, Repr

/-- `POST /applications/start` (`start_application`): reject with
`BaseResponse(code=400)` only when the app is already `running`; otherwise
set `starting`, insert a `start_app` task and return code 0. -/
def start_application (st : ApplicationStatus) : RouteResult :=
  if st = ApplicationStatus.running then ⟨400, false, false, none⟩
  else ⟨0, false, true, some ApplicationStatus.starting⟩

/-- `POST /applications/stop` (`stop_application`): raise
`HTTPException(400)` unless the app is `running`; otherwise set `stopping`,
insert a `stop_app` task and return code 0. -/
def stop_application (st : ApplicationStatus) : RouteResult :=
  if st ≠ ApplicationStatus.running then ⟨400, true, false, none⟩
  else ⟨0, false, true, some ApplicationStatus.stopping⟩

/-- `POST /applications/restart` (`restart_application`): raise
`HTTPException(400)` unless the app is `running`; otherwise insert a
`restart_app` task, set `starting` and return code 0. -/
def restart_application (st : ApplicationStatus) : RouteResult :=
  if st ≠ ApplicationStatus.running then ⟨400, true, false, none⟩
  else ⟨0, false, true, some ApplicationStatus.starting⟩

/-- `POST /applications/delete` (`delete_application`): no status check at
all — set `deleting`, insert a `delete_app` task and return code 0. -/
def delete_application_route (_st : ApplicationStatus) : RouteResult :=
  ⟨0, false, true, some ApplicationStatus.deleting⟩

/-- Counterexample to claim C3 as stated: a `start` request on an app whose
status is `stopping` is accepted with code 0 and inserts a new task (and a
`delete` request while `starting` is accepted too), although the claim
requires every request in a transitional state other than an idempotent
re-request of the same action to be rejected without inserting a task. -/
theorem start_accepted_while_stopping :
    start_application ApplicationStatus.stopping
      = ⟨0, false, true, some ApplicationStatus.starting⟩
    ∧ delete_application_route ApplicationStatus.starting
      = ⟨0, false, true, some ApplicationStatus.deleting⟩ :=
  ⟨rfl, rfl⟩

/-- Claim C3 as amended: `start` is rejected — non-zero code 400, no task —
exactly when the app is `running` and accepted from every other status;
`stop` and `restart` are rejected (HTTP 400, no task) exactly when the app is
not `running`; `delete` is accepted in every state; in particular
`POST /applications/start` on a `running` app returns a non-zero code and
inserts no task. -/
theorem application_state_gating (st : ApplicationStatus) :
    start_application st = (if st = ApplicationStatus.running
      then ⟨400, false, false, none⟩
      else ⟨0, false, true, some ApplicationStatus.starting⟩)
    ∧ stop_application st = (if st = ApplicationStatus.running
      then ⟨0, false, true, some ApplicationStatus.stopping⟩
      else ⟨400, true, false, none⟩)
    ∧ restart_application st = (if st = ApplicationStatus.running
      then ⟨0, false, true, some ApplicationStatus.starting⟩
      else ⟨400, true, false, none⟩)
    ∧ delete_application_route st = ⟨0, false, true, some ApplicationStatus.deleting⟩
    ∧ (start_application ApplicationStatus.running).code = 400
    ∧ (start_application ApplicationStatus.running).task_inserted = false := by
  cases st <;> decide

/- ### Status reconciler (src/server/core/runtime_status_manager.py) -/

/-- Container states distinguished by `sync_runtime_status` (every state
other than `running`, `created`, `restarting` falls into the final `else`
of the source, e.g. `exited`, `dead`, `paused`). -/
inductive DockerStatus
  | running
  | created
  | restarting
  | exited
  | dead
  | paused
deriving DecidableEq, Repr

/-- Docker health-check states; `none` models a container without a
configured health check. -/
inductive HealthStatus
  | healthy
  | unhealthy
  | starting
deriving DecidableEq, Repr

/-- The per-container observation used by the reconciler. -/
structure ContainerInfo where
  status : DockerStatus
  health_status : Option HealthStatus
deriving DecidableEq, Repr

/-- The status mapping of `sync_runtime_status`: absent container →
`stopped`; `running` + `healthy` → `running`; `running` + `unhealthy` →
`error`; `running` otherwise → `starting`; `created`/`restarting` →
`starting`; anything else → `stopped`. -/
def compute_new_status (info : Option ContainerInfo) : ApplicationStatus :=
  match info with
  | none => ApplicationStatus.stopped
  | some i =>
    match i.status with
    | DockerStatus.running =>
      match i.health_status with
      | some HealthStatus.healthy => ApplicationStatus.running
      | some HealthStatus.unhealthy => ApplicationStatus.error
      | _ => ApplicationStatus.starting
    | DockerStatus.created => ApplicationStatus.starting
    | DockerStatus.restarting => ApplicationStatus.starting
    | _ => ApplicationStatus.stopped

/-- The per-application body of the reconciler sweep: skip transitional
statuses (`stopping`, `stopped`, `deleting`), otherwise compute the new
status and write it back only when it differs from the recorded one
(`some` = a DB write happens, `none` = no write). -/
def sync_runtime_status_app (appStatus : ApplicationStatus)
    (info : Option ContainerInfo) : Option ApplicationStatus :=
  if appStatus = ApplicationStatus.stopping ∨ appStatus = ApplicationStatus.stopped
      ∨ appStatus = ApplicationStatus.deleting then none
  else if appStatus ≠ compute_new_status info then some (compute_new_status info)
  else none

/-- Claim C7: for every Application not in `stopping`, `stopped`, or
`deleting`, the reconciler maps the observed container exactly per the
spec's table and writes the new status iff it differs from the recorded
one. -/
theorem sync_runtime_status_table (st : ApplicationStatus) (info : Option ContainerInfo)
    (h1 : st ≠ ApplicationStatus.stopping) (h2 : st ≠ ApplicationStatus.stopped)
    (h3 : st ≠ ApplicationStatus.deleting) :
    sync_runtime_status_app st info
      = (if st ≠ compute_new_status info then some (compute_new_status info) else none)
    ∧ compute_new_status none = ApplicationStatus.stopped
    ∧ compute_new_status (some ⟨DockerStatus.running, some HealthStatus.healthy⟩)
        = ApplicationStatus.running
    ∧ compute_new_status (some ⟨DockerStatus.running, some HealthStatus.unhealthy⟩)
        = ApplicationStatus.error
    ∧ compute_new_status (some ⟨DockerStatus.running, some HealthStatus.starting⟩)
        = ApplicationStatus.starting
    ∧ compute_new_status (some ⟨DockerStatus.running, none⟩) = ApplicationStatus.starting
    ∧ (∀ h, compute_new_status (some ⟨DockerStatus.created, h⟩) = ApplicationStatus.starting)
    ∧ (∀ h, compute_new_status (some ⟨DockerStatus.restarting, h⟩) = ApplicationStatus.starting)
    ∧ (∀ h, compute_new_status (some ⟨DockerStatus.exited, h⟩) = ApplicationStatus.stopped)
    ∧ (∀ h, compute_new_status (some ⟨DockerStatus.dead, h⟩) = ApplicationStatus.stopped)
    ∧ (∀ h, compute_new_status (some ⟨DockerStatus.paused, h⟩) = ApplicationStatus.stopped) := by
  refine ⟨?_, rfl, rfl, rfl, rfl, rfl, fun h => rfl, fun h => rfl, fun h => rfl,
    fun h => rfl, fun h => rfl⟩
  unfold sync_runtime_status_app
  rw [if_neg]
  push_neg
  exact ⟨h1, h2, h3⟩

/-- Witness for C7: an app recorded as `starting` whose container is absent
is written back as `stopped`. -/
theorem sync_runtime_status_table_witness :
    sync_runtime_status_app ApplicationStatus.starting none
      = some ApplicationStatus.stopped := by
  have h := (sync_runtime_status_table ApplicationStatus.starting none
    (by decide) (by decide) (by decide)).1
  rw [h]
  decide

/- ### Function creation (src/server/routers/functions.py, create_function) -/

/-- The name check of `create_function`:
`re.search` for the pattern `[\\u4e00-\\u9fa5]` — does the name contain a
character in the CJK range U+4E00–U+9FA5? -/
def contains_chinese_char (name : String) : Bool :=
  name.data.any fun c => 0x4e00 ≤ c.toNat && c.toNat ≤ 0x9fa5

/-- Outcome of a `POST /function/create` request. -/
structure CreateFunctionResult where
  code : Nat
  inserted : Bool
deriving DecidableEq, Repr

/-- `create_function`, after the Application is found: reject duplicate names
(code 309), reject `common` names containing a Chinese character (code 308),
raise `HTTPException(404)` when no template resolves, otherwise insert the
`Function` document and return code 0. -/
def create_function (ftype : FunctionType) (name : String)
    (name_exists : Bool) (template_found : Bool) : CreateFunctionResult :=
  if name_exists then ⟨309, false⟩
  else if (ftype == FunctionType.common) && contains_chinese_char name then ⟨308, false⟩
  else if !template_found then ⟨404, false⟩
  else ⟨0, true⟩

/-- Counterexample to claim C9 as stated: the `common` function name `"é"`
contains a non-ASCII character, yet `create_function` accepts it (code 0)
and inserts the Function document — the source only rejects characters in
the Chinese range U+4E00–U+9FA5. -/
theorem create_function_accepts_nonascii :
    create_function FunctionType.common "é" false true = ⟨0, true⟩
    ∧ ("é".data.all fun c => c.toNat ≤ 127) = false := by
  decide

/-- Claim C9 as amended: creating a function of type `common` whose name
contains a character in the CJK range U+4E00–U+9FA5 is rejected at create
with the non-zero code 308, and no Function document is inserted for that
request. -/
theorem create_function_rejects_chinese (name : String) (tmpl : Bool)
    (h : contains_chinese_char name = true) :
    create_function FunctionType.common name false tmpl = ⟨308, false⟩ := by
  simp [create_function, h]

/-- Witness for C9 as amended: the name `"中"` (U+4E2D) is rejected with
code 308 and no insert. -/
theorem create_function_rejects_chinese_witness :
    contains_chinese_char "中" = true
    ∧ create_function FunctionType.common "中" false true = ⟨308, false⟩ :=
  ⟨by decide, create_function_rejects_chinese "中" true (by decide)⟩

/- ### Blob-store file helper (src/app/core/faas_minio.py) -/

/-- The Python exceptions that can escape `minio_open` and its helpers.
`FileExistsError` and `FileNotFoundError` are the built-in subclasses of
`OSError`; `IOError` is the bare `OSError` alias raised by the wrapping
handlers; `ValueError` comes from `_parse_mode`. -/
inductive PyExc
  | s3Error (code : String)
  | fileExistsError
  | fileNotFoundError
  | ioError
  | valueError
deriving DecidableEq, Repr

/-- The mode flags computed by `_parse_mode`. -/
structure ModeFlags where
  read : Bool
  write : Bool
  append : Bool
  exclusive : Bool
  update : Bool
  binary : Bool
deriving DecidableEq, Repr

/-- `_parse_mode`: map the mode string to flags, rejecting combinations of
`r`/`w`/`a`/`x` and the `x+` combination with `ValueError`. -/
def parse_mode (mode : String) : Except PyExc ModeFlags :=
  let m : ModeFlags :=
    ⟨mode.data.contains 'r', mode.data.contains 'w', mode.data.contains 'a',
     mode.data.contains 'x', mode.data.contains '+', mode.data.contains 'b'⟩
  if 1 < (cond m.read 1 0) + (cond m.write 1 0) + (cond m.append 1 0)
      + (cond m.exclusive 1 0) then
    Except.error PyExc.valueError
  else if m.exclusive && m.update then Except.error PyExc.valueError
  else Except.ok m

/-- The main mode selected in `_buffered_read_write` (defaults to `r`). -/
def main_mode (m : ModeFlags) : Char :=
  if m.write then 'w' else if m.append then 'a' else if m.exclusive then 'x' else 'r'

/-- The preparation phase of `_buffered_read_write` as written inside the
outer `try`: in `x` mode, `stat_object` followed by `raise FileExistsError`
when the object exists (a missing object surfaces as `S3Error` with code
`NoSuchKey`, which the inner handler swallows); in read/append/update modes,
`get_object`, with `raise FileNotFoundError` for a missing object in plain
`r` mode.  The blob store is modelled by the object's current content
(`none` = absent). -/
def buffered_prep_inner (m : ModeFlags) (obj : Option String) : Except PyExc String :=
  if main_mode m = 'x' then
    match obj with
    | some _ => Except.error PyExc.fileExistsError
    | none => Except.ok ""
  else if (main_mode m = 'r' || main_mode m = 'a')
      || (m.update && !(main_mode m = 'w')) then
    match obj with
    | some d => Except.ok d
    | none =>
      if main_mode m = 'r' then Except.error PyExc.fileNotFoundError
      else Except.ok ""
  else Except.ok ""

/-- The preparation phase as observed by callers: the whole block above sits
inside `try: ... except Exception as e: raise IOError(...) from e`, so every
exception it raises — including the `FileExistsError` and
`FileNotFoundError` the block itself constructs — is caught and re-raised as
a bare `IOError`. -/
def buffered_prep (m : ModeFlags) (obj : Option String) : Except PyExc String :=
  match buffered_prep_inner m obj with
  | Except.error _ => Except.error PyExc.ioError
  | Except.ok d => Except.ok d

/-- `_buffered_read_write` end to end: on successful preparation the buffer
is yielded to the caller (whose opaque interaction leaves `finalContent` in
the buffer) and, for any write-capable mode, `put_object` uploads the buffer
on close.  The result is the final state of the object; an error means the
yield was never reached and the object is untouched. -/
def buffered_read_write (m : ModeFlags) (obj : Option String)
    (finalContent : String) : Except PyExc (Option String) :=
  match buffered_prep m obj with
  | Except.error e => Except.error e
  | Except.ok _ =>
    if (main_mode m = 'w' || main_mode m = 'a' || main_mode m = 'x') || m.update then
      Except.ok (some finalContent)
    else Except.ok obj

/-- `_streaming_read`: up to 3 `get_object` attempts; every `NoSuchKey`
before the last retries, and the last re-raises wrapped as
`IOError("Could not access ...")` — the `raise FileNotFoundError` after the
loop is unreachable, because each iteration either breaks with a response or
raises. -/
def streaming_read (obj : Option String) : Except PyExc String :=
  match obj with
  | some d => Except.ok d
  | none => Except.error PyExc.ioError

/-- `minio_open`: parse the mode, then dispatch to the streaming reader (for
plain streaming reads) or the buffered reader/writer.  The result carries
the final object state. -/
def minio_open (mode : String) (streaming : Bool) (obj : Option String)
    (finalContent : String) : Except PyExc (Option String) :=
  match parse_mode mode with
  | Except.error e => Except.error e
  | Except.ok m =>
    let is_simple_read :=
      m.read && !(m.write || m.append || m.exclusive || m.update)
    if is_simple_read && streaming then
      match streaming_read obj with
      | Except.error e => Except.error e
      | Except.ok _ => Except.ok obj
    else buffered_read_write m obj finalContent

/-- Claim C5 (refuted, code bug): reading a missing object raises a bare
`IOError`, not `FileNotFoundError`, in both buffered and streaming mode, and
exclusive mode on an existing object raises a bare `IOError`, not
`FileExistsError` — the inner code constructs the specific exceptions
(`buffered_prep_inner`), but the enclosing `except Exception` handler
converts them.  The creation behaviour does hold: exclusive mode creates a
missing object and an existing object is never overwritten (the error is
raised before the yield, so no upload happens). -/
theorem minio_open_wraps_specific_errors :
    minio_open "r" false none "" = Except.error PyExc.ioError
    ∧ minio_open "r" true none "" = Except.error PyExc.ioError
    ∧ minio_open "x" false (some "data") "new" = Except.error PyExc.ioError
    ∧ buffered_prep_inner ⟨true, false, false, false, false, false⟩ none
        = Except.error PyExc.fileNotFoundError
    ∧ buffered_prep_inner ⟨false, false, false, true, false, false⟩ (some "data")
        = Except.error PyExc.fileExistsError
    ∧ minio_open "x" false none "new" = Except.ok (some "new") := by
  refine ⟨rfl, rfl, rfl, rfl, rfl, rfl⟩

/- ### Application deletion (src/server/core/docker_manager.py,
delete_application_background, and src/server/core/task_worker.py) -/

/-- `TaskStatus` of models/tasks_model.py. -/
inductive TaskStatus
  | pending
  | running
  | success
  | failed
deriving DecidableEq, Repr

/-- `TaskAction` of models/tasks_model.py. -/
inductive TaskAction
  | start_app
  | stop_app
  | restart_app
  | delete_app
deriving DecidableEq, Repr

/-- A `Task` document; `payload_app_id` is `payload.get("app_id")`. -/
structure TaskDoc where
  task_id : String
  action : TaskAction
  status : TaskStatus
  payload_app_id : Option String
deriving DecidableEq, Repr

/-- The fields of a `FunctionTemplate` document the delete path reads. -/
structure FunctionTemplateDoc where
  app_id : String
  name : String
deriving DecidableEq, Repr

/-- The fields of a `FunctionMetric` document relevant to ownership. -/
structure FunctionMetricDoc where
  app_id : String
  function_id : String
deriving DecidableEq, Repr

/-- The fields of a `FunctionsHistory` document relevant to ownership. -/
structure FunctionsHistoryDoc where
  function_id : String
deriving DecidableEq, Repr

/-- The state touched by the controller's delete path: the main-database
collections (applications by `app_id`, functions, templates, metrics,
history, tasks), the blob-store buckets, the per-app databases, the
container engine's containers (by name), the in-memory `running_apps` map
of docker_manager, and the per-app proxy config files. -/
structure ControlState where
  applications : List String
  functions : List FunctionDoc
  function_templates : List FunctionTemplateDoc
  function_metrics : List FunctionMetricDoc
  functions_history : List FunctionsHistoryDoc
  tasks : List TaskDoc
  buckets : List String
  databases : List String
  containers : List String
  running_apps : List (String × String)
  proxy_configs : List String
deriving DecidableEq, Repr

/-- Step 1 of `delete_application_background`: delete every `Task` found by
`{"payload.app_id": app.app_id, "action": TaskAction.START_APP}` — no status
filter, so `pending`, `running`, `success` and `failed` tasks alike. -/
def delete_pending_start_tasks (app_id : String) (s : ControlState) : ControlState :=
  { s with tasks := s.tasks.filter fun t =>
      !(t.action == TaskAction.start_app && t.payload_app_id == some app_id) }

/-- `stop_app_container` (src/server/core/docker_manager.py): only if
`app_id in running_apps` stop and remove the recorded container, remove the
Traefik web config, and drop the in-memory record; otherwise do nothing. -/
def stop_app_container (app_id : String) (s : ControlState) : ControlState :=
  match dictLookup s.running_apps app_id with
  | none => s
  | some container_name =>
    { s with
      containers := s.containers.filter fun c => !(c == container_name)
      proxy_configs := s.proxy_configs.filter fun p => !(p == app_id)
      running_apps := dictRemove s.running_apps app_id }

/-- Step 3: delete every `Function` with the app's `app_id`. -/
def delete_app_functions (app_id : String) (s : ControlState) : ControlState :=
  { s with functions := s.functions.filter fun f => !(f.app_id == app_id) }

/-- Step 4: delete every `FunctionTemplate` with the app's `app_id`. -/
def delete_app_function_templates (app_id : String) (s : ControlState) : ControlState :=
  { s with function_templates :=
      s.function_templates.filter fun t => !(t.app_id == app_id) }

/-- Step 5: empty and remove the bucket `<app_id_lc>` and the web bucket
`web-<app_id_lc>` (each guarded by `bucket_exists`, so absent buckets stay
absent), and remove the Traefik web config again. -/
def delete_app_buckets (app_id : String) (s : ControlState) : ControlState :=
  { s with
    buckets := s.buckets.filter fun b =>
      !(b == app_id.toLower || b == "web-" ++ app_id.toLower)
    proxy_configs := s.proxy_configs.filter fun p => !(p == app_id) }

/-- Step 6: drop the dedicated database named after `app_id`. -/
def drop_app_database (app_id : String) (s : ControlState) : ControlState :=
  { s with databases := s.databases.filter fun d => !(d == app_id) }

/-- Step 7: delete the Application document itself. -/
def delete_application_document (app_id : String) (s : ControlState) : ControlState :=
  { s with applications := s.applications.filter fun a => !(a == app_id) }

/-- `delete_application_background`: steps 1–7 in source order (every step
is wrapped in its own `try`, and on the happy path all of them succeed). -/
def delete_application_background (app_id : String) (s : ControlState) : ControlState :=
  delete_application_document app_id
    (drop_app_database app_id
      (delete_app_buckets app_id
        (delete_app_function_templates app_id
          (delete_app_functions app_id
            (stop_app_container app_id
              (delete_pending_start_tasks app_id s))))))

/-- Claim C10: step 1 of `delete_application_background` — which runs before
any resource teardown, as the definition of `delete_application_background`
records — deletes every Task with action `start_app` whose payload
references the app being deleted, regardless of that task's status. -/
theorem delete_removes_start_tasks_first (app_id : String) (s : ControlState) :
    ((delete_pending_start_tasks app_id s).tasks.all fun t =>
      !(t.action == TaskAction.start_app && t.payload_app_id == some app_id)) = true
    ∧ delete_application_background app_id s
      = delete_application_document app_id
          (drop_app_database app_id
            (delete_app_buckets app_id
              (delete_app_function_templates app_id
                (delete_app_functions app_id
                  (stop_app_container app_id
                    (delete_pending_start_tasks app_id s)))))) := by
  constructor
  · rw [List.all_eq_true]
    intro t ht
    simp only [delete_pending_start_tasks, List.mem_filter] at ht
    exact ht.2
  · rfl

/-- A concrete controller state with one app `A` that owns a function, a
template, a metric, a history row, two buckets, a database, and a live
recorded container. -/
def c2State : ControlState :=
  { applications := ["A"]
  , functions := [⟨"A", "f1", "hello", FunctionType.endpoint,
      FunctionStatus.published, "code"⟩]
  , function_templates := [⟨"A", "default"⟩]
  , function_metrics := [⟨"A", "f1"⟩]
  , functions_history := [⟨"f1"⟩]
  , tasks := []
  , buckets := ["a", "web-a"]
  , databases := ["A", "hyac"]
  , containers := ["hyac-app-runtime-a"]
  , running_apps := [("A", "hyac-app-runtime-a")]
  , proxy_configs := ["A"] }

/-- The same controller state as `c2State` except that the in-memory
`running_apps` map has no record for `A` — the situation after a controller
restart — while the container `hyac-app-runtime-a` is still live in the
engine. -/
def c2StateUnrecorded : ControlState :=
  { c2State with running_apps := [] }

/-- Counterexample to claim C2 as stated, in two parts.  First, after a
successful `delete_application_background` for app `A` (the Application
document is indeed gone), the `FunctionMetric` and `FunctionsHistory`
documents of `A` still exist — no step of the delete path touches those two
collections.  Second, when the controller's in-memory `running_apps` map has
no record for `A` (e.g. after a controller restart), `stop_app_container` is
a no-op and the live container `hyac-app-runtime-a` survives the whole
delete, although the Application document is removed all the same. -/
theorem delete_application_leaves_metrics_and_history :
    (delete_application_background "A" c2State).function_metrics = [⟨"A", "f1"⟩]
    ∧ (delete_application_background "A" c2State).functions_history = [⟨"f1"⟩]
    ∧ "A" ∉ (delete_application_background "A" c2State).applications
    ∧ (delete_application_background "A" c2StateUnrecorded).containers
        = ["hyac-app-runtime-a"]
    ∧ "A" ∉ (delete_application_background "A" c2StateUnrecorded).applications := by
  refine ⟨rfl, rfl, by decide, rfl, by decide⟩

/-- Claim C2 as amended: after a successful `delete_app` for app A whose
container is recorded in `running_apps`, the Application document is
removed, no Function or FunctionTemplate document with A's `app_id` remains,
both buckets (`<app_id_lc>` and `web-<app_id_lc>`) are removed, the database
named after `app_id` is dropped, and the recorded runtime container is
removed; `FunctionMetric` and `FunctionsHistory` documents are not deleted
by this path. -/
theorem delete_application_completeness (app_id cname : String) (s : ControlState)
    (h : dictLookup s.running_apps app_id = some cname) :
    app_id ∉ (delete_application_background app_id s).applications
    ∧ ((delete_application_background app_id s).functions.all fun f =>
        !(f.app_id == app_id)) = true
    ∧ ((delete_application_background app_id s).function_templates.all fun t =>
        !(t.app_id == app_id)) = true
    ∧ app_id.toLower ∉ (delete_application_background app_id s).buckets
    ∧ ("web-" ++ app_id.toLower) ∉ (delete_application_background app_id s).buckets
    ∧ app_id ∉ (delete_application_background app_id s).databases
    ∧ cname ∉ (delete_application_background app_id s).containers
    ∧ (delete_application_background app_id s).function_metrics = s.function_metrics
    ∧ (delete_application_background app_id s).functions_history = s.functions_history := by
  simp only [delete_application_background, delete_application_document,
    drop_app_database, delete_app_buckets, delete_app_function_templates,
    delete_app_functions, delete_pending_start_tasks, stop_app_container, h]
  refine ⟨?_, ?_, ?_, ?_, ?_, ?_, ?_, trivial, trivial⟩
  · intro hmem
    simp only [List.mem_filter, beq_self_eq_true, Bool.not_true,
      Bool.false_eq_true, and_false] at hmem
  · rw [List.all_eq_true]
    intro f hf
    simp only [List.mem_filter] at hf
    exact hf.2
  · rw [List.all_eq_true]
    intro t ht
    simp only [List.mem_filter] at ht
    exact ht.2
  · intro hmem
    simp only [List.mem_filter, beq_self_eq_true, Bool.true_or, Bool.not_true,
      Bool.false_eq_true, and_false] at hmem
  · intro hmem
    simp only [List.mem_filter, beq_self_eq_true, Bool.or_true, Bool.not_true,
      Bool.false_eq_true, and_false] at hmem
  · intro hmem
    simp only [List.mem_filter, beq_self_eq_true, Bool.not_true,
      Bool.false_eq_true, and_false] at hmem
  · intro hmem
    simp only [List.mem_filter, beq_self_eq_true, Bool.not_true,
      Bool.false_eq_true, and_false] at hmem

/-- Witness for C2 as amended at the concrete state `c2State`. -/
theorem delete_application_completeness_witness :
    "A" ∉ (delete_application_background "A" c2State).applications
    ∧ "A".toLower ∉ (delete_application_background "A" c2State).buckets
    ∧ ("web-" ++ "A".toLower) ∉ (delete_application_background "A" c2State).buckets
    ∧ "A" ∉ (delete_application_background "A" c2State).databases
    ∧ "hyac-app-runtime-a" ∉ (delete_application_background "A" c2State).containers := by
  obtain ⟨h1, h2, h3, h4, h5, h6, h7, h8, h9⟩ :=
    delete_application_completeness "A" "hyac-app-runtime-a" c2State rfl
  exact ⟨h1, h4, h5, h6, h7⟩
